import Mathlib

/-!
Verification of the LLM inference hardware calculator.

The repository contains three side-by-side implementations of the same
VRAM/RAM/disk estimator.  Each is embedded below as pure functions over ℚ
(JavaScript numbers carry out exact arithmetic on all the constants and
inputs involved, so ℚ is a faithful model; `Math.ceil` becomes `Int.ceil`):

* `Calculator` — `src/llm_inference/components/calculator.tsx`,
  `calculateRequirements` (head-count based KV-cache model), together with
  the `isVramSufficient` check of the results display component and the
  `batchSizeFactor` curve of `src/components/inference-speed-estimator.tsx`.
* `App` — first component of `src/src/App.tsx` (`alpha = 0.2` KV-fraction
  variant, `calculateHardwareRecommendation`, `calculateOnDiskSize`).
* `App2` — second component of `src/src/App.tsx` (fixed `1.2 ×` KV-cache
  multiplier variant).
-/

namespace Calculator

/-- Inputs of `calculateRequirements` (the React state it reads):
model size in billions of parameters, context length in tokens,
quantization method, KV-cache toggle, batch size, GPU model,
system RAM in GB, unified-memory toggle. -/
structure Inputs where
  modelSize : ℚ
  contextLength : ℚ
  quantizationMethod : String
  enableKVCache : Bool
  batchSize : ℚ
  gpuModel : String
  systemRAM : ℚ
  unifiedMemory : Bool

/-- Bytes per parameter by quantization method
(`calculator.tsx` lines 57–65); the JS object lookup with `|| 2`
falls back to 2 for any key not in the table. -/
def bytesPerParameter (q : String) : ℚ :=
  if q = "fp32" then 4
  else if q = "fp16" then 2
  else if q = "bf16" then 2
  else if q = "int8" then 1
  else if q = "int4" then 0.5
  else if q = "gptq" then 0.5
  else 2

/-- Model size in bytes (`calculator.tsx` line 68). -/
def modelSizeBytes (i : Inputs) : ℚ :=
  i.modelSize * 1000000000 * bytesPerParameter i.quantizationMethod

/-- Approximate head count (`calculator.tsx` line 76):
`Math.ceil((modelSize * 1000000000) / (4 * 768 * 768))`. -/
def numHeads (i : Inputs) : ℤ :=
  ⌈i.modelSize * 1000000000 / (4 * 768 * 768)⌉

/-- KV cache size in bytes (`calculator.tsx` lines 71–78); the trailing
`* 2` is the source's fixed "2 bytes for fp16", `headDim = 128`. -/
def kvCacheSize (i : Inputs) : ℚ :=
  if i.enableKVCache then
    2 * (numHeads i : ℚ) * 128 * i.contextLength * i.batchSize * 2
  else 0

/-- Total VRAM in GB (`calculator.tsx` lines 81–82). -/
def totalVramGB (i : Inputs) : ℚ :=
  (modelSizeBytes i + kvCacheSize i) / (1024 * 1024 * 1024)

/-- System RAM requirement (`calculator.tsx` line 86:
`ramRequired = totalVramGB * 1.5`), abstracted over the VRAM amount;
this is the spec's `estimateSystemRam` operation. -/
def estimateSystemRam (v : ℚ) : ℚ := v * 1.5

/-- Disk space in GB (`calculator.tsx` line 90). -/
def diskSpaceGB (i : Inputs) : ℚ :=
  i.modelSize * 1000000000 * bytesPerParameter i.quantizationMethod
    / (1024 * 1024 * 1024) * 1.1

/-- GPU VRAM capacities (`calculator.tsx` lines 94–110); the lookup with
`|| 24` falls back to 24 for an unknown GPU model. -/
def gpuVramSizes (g : String) : ℚ :=
  if g = "rtx3090" then 24
  else if g = "rtx4090" then 24
  else if g = "a100_40gb" then 40
  else if g = "a100_80gb" then 80
  else if g = "h100" then 80
  else if g = "rtx3080" then 10
  else if g = "rtx4080" then 16
  else if g = "rtx3070" then 8
  else if g = "rtx4070" then 12
  else if g = "a10" then 24
  else if g = "l4" then 24
  else if g = "a30" then 24
  else if g = "a40" then 48
  else 24

/-- GPUs needed (`calculator.tsx` lines 111–113). -/
def gpusNeededCalc (i : Inputs) : ℤ :=
  if i.unifiedMemory then ⌈totalVramGB i / (i.systemRAM * 0.75)⌉
  else ⌈totalVramGB i / gpuVramSizes i.gpuModel⌉

/-- GPU relative speed factors (`calculator.tsx` lines 119–133, `|| 1.0`
fallback at line 145). -/
def gpuSpeedFactors (g : String) : ℚ :=
  if g = "rtx3090" then 1
  else if g = "rtx4090" then 1.8
  else if g = "a100_40gb" then 1.5
  else if g = "a100_80gb" then 1.6
  else if g = "h100" then 2.5
  else if g = "rtx3080" then 0.7
  else if g = "rtx4080" then 1.2
  else if g = "rtx3070" then 0.5
  else if g = "rtx4070" then 0.8
  else if g = "a10" then 0.9
  else if g = "l4" then 0.9
  else if g = "a30" then 1.1
  else if g = "a40" then 1.3
  else 1

/-- Quantization speed factors (`calculator.tsx` lines 135–143), with the
`|| 1.0` fallback. -/
def quantizationSpeedFactor (q : String) : ℚ :=
  if q = "fp32" then 0.5
  else if q = "fp16" then 1
  else if q = "bf16" then 1
  else if q = "int8" then 1.5
  else if q = "int4" then 2
  else if q = "gptq" then 1.8
  else 1

/-- Inference speed (`calculator.tsx` lines 146–149). -/
def inferenceSpeedCalc (i : Inputs) : ℚ :=
  30 * gpuSpeedFactors i.gpuModel * quantizationSpeedFactor i.quantizationMethod
    * (7 / i.modelSize) * (gpusNeededCalc i : ℚ)

/-- The five outputs `calculateRequirements` stores into React state. -/
structure Results where
  vramRequired : ℚ
  systemRAMRequired : ℚ
  diskSpace : ℚ
  gpusNeeded : ℤ
  inferenceSpeed : ℚ

/-- The whole of `calculateRequirements` (`calculator.tsx` lines 55–151). -/
def calculateRequirements (i : Inputs) : Results :=
  { vramRequired := totalVramGB i
    systemRAMRequired := estimateSystemRam (totalVramGB i)
    diskSpace := diskSpaceGB i
    gpusNeeded := gpusNeededCalc i
    inferenceSpeed := inferenceSpeedCalc i }

/-- Memory-sufficiency check of the results display
(`src/unnamed/part_000`, `isVramSufficient`). -/
def isVramSufficient (vramRequired : ℚ) (systemRAM : ℚ)
    (selectedGpuVram : ℚ) (unifiedMemory : Bool) : Bool :=
  if unifiedMemory then vramRequired ≤ systemRAM * 0.75
  else vramRequired ≤ selectedGpuVram

/-- Batch scaling curve of the inference speed estimator
(`src/components/inference-speed-estimator.tsx` line 78):
`Math.log2(batchSize) / Math.log2(4) + 0.5`. -/
noncomputable def batchSizeFactor (b : ℝ) : ℝ :=
  Real.logb 2 b / Real.logb 2 4 + 0.5

end Calculator

namespace App

/-- Memory mode (`src/src/App.tsx` line 5). -/
inductive MemoryMode where
  | DISCRETE_GPU
  | UNIFIED_MEMORY
deriving DecidableEq

/-- Model quantization set (`src/src/App.tsx` lines 8–18). -/
inductive ModelQuantization where
  | F32 | F16 | Q8 | Q6 | Q5 | Q4 | Q3 | Q2 | GPTQ | AWQ
deriving DecidableEq

/-- KV cache quantization set (`src/src/App.tsx` line 21). -/
inductive KvCacheQuantization where
  | F32 | F16 | Q8 | Q5 | Q4
deriving DecidableEq

/-- Bits-based multiplier for the main model
(`src/src/App.tsx` lines 56–70, `getModelQuantFactor`). -/
def getModelQuantFactor : ModelQuantization → ℚ
  | .F32 => 4
  | .F16 => 2
  | .Q8 => 1
  | .Q6 => 0.75
  | .Q5 => 0.625
  | .Q4 => 0.5
  | .Q3 => 0.375
  | .Q2 => 0.25
  | .GPTQ => 0.4
  | .AWQ => 0.35

/-- Bits-based multiplier for the KV cache
(`src/src/App.tsx` lines 74–83, `getKvCacheQuantFactor`). -/
def getKvCacheQuantFactor : KvCacheQuantization → ℚ
  | .F32 => 4
  | .F16 => 2
  | .Q8 => 1
  | .Q5 => 0.625
  | .Q4 => 0.5

/-- The React state the first `App` component reads
(`src/src/App.tsx` lines 38–49). -/
structure State where
  params : ℚ
  modelQuant : ModelQuantization
  useKvCache : Bool
  kvCacheQuant : KvCacheQuantization
  contextLength : ℚ
  memoryMode : MemoryMode
  systemMemory : ℚ
  gpuVram : ℚ

/-- Context scaling (`src/src/App.tsx` lines 95–96):
`contextScale = contextLength / 2048`, clamped below at 1. -/
def contextScale (s : State) : ℚ :=
  if s.contextLength / 2048 < 1 then 1 else s.contextLength / 2048

/-- VRAM for single-user inference (`src/src/App.tsx` lines 89–109,
`calculateRequiredVram`): model memory plus `alpha = 0.2` KV fraction. -/
def calculateRequiredVram (s : State) : ℚ :=
  let modelMem := s.params * getModelQuantFactor s.modelQuant * contextScale s
  let kvCacheMem :=
    if s.useKvCache then
      s.params * getKvCacheQuantFactor s.kvCacheQuant * contextScale s * 0.2
    else 0
  modelMem + kvCacheMem

/-- Unified-memory VRAM budget (`src/src/App.tsx` line 112). -/
def getMaxUnifiedVram (memGB : ℚ) : ℚ := memGB * 0.75

/-- Final recommendation record (`src/src/App.tsx` lines 24–30);
`vramNeeded` is kept as the exact rational the source formats with
`toFixed(1)`. -/
structure Recommendation where
  gpuType : String
  vramNeeded : ℚ
  fitsUnified : Bool
  systemRamNeeded : ℚ
  gpusRequired : ℤ

/-- Hardware recommendation (`src/src/App.tsx` lines 115–161,
`calculateHardwareRecommendation`). -/
def calculateHardwareRecommendation (s : State) : Recommendation :=
  let requiredVram := calculateRequiredVram s
  let recSystemMemory := s.systemMemory
  if s.memoryMode = MemoryMode.UNIFIED_MEMORY then
    if requiredVram ≤ getMaxUnifiedVram recSystemMemory then
      { gpuType := "Unified memory (ex: Apple silicon, AMD Ryzen AI Max+ 395)"
        vramNeeded := requiredVram
        fitsUnified := true
        systemRamNeeded := recSystemMemory
        gpusRequired := 1 }
    else
      { gpuType := "Unified memory (insufficient)"
        vramNeeded := requiredVram
        fitsUnified := false
        systemRamNeeded := recSystemMemory
        gpusRequired := 0 }
  else
    if requiredVram ≤ s.gpuVram then
      { gpuType := "Single GPU"
        vramNeeded := requiredVram
        fitsUnified := false
        systemRamNeeded := max recSystemMemory requiredVram
        gpusRequired := 1 }
    else
      { gpuType := "Discrete GPUs"
        vramNeeded := requiredVram
        fitsUnified := false
        systemRamNeeded := max recSystemMemory requiredVram
        gpusRequired := ⌈requiredVram / s.gpuVram⌉ }

/-- Bits per parameter for on-disk size
(`src/src/App.tsx` lines 166–178). -/
def bitsPerParam : ModelQuantization → ℚ
  | .F32 => 32
  | .F16 => 16
  | .Q8 => 8
  | .Q6 => 6
  | .Q5 => 5
  | .Q4 => 4
  | .Q3 => 3
  | .Q2 => 2
  | .GPTQ => 4
  | .AWQ => 4

/-- On-disk model size in (decimal) GB
(`src/src/App.tsx` lines 164–185, `calculateOnDiskSize`). -/
def calculateOnDiskSize (s : State) : ℚ :=
  s.params * 1000000000 * bitsPerParam s.modelQuant / 8 / 1000000000 * 1.1

end App

namespace App2

/-- Quantization set of the second `App` component
(`src/src/App.tsx` lines 423–432). -/
inductive Quantization where
  | FP32 | FP16 | INT8 | INT6 | INT4 | INT3 | INT2 | GPTQ | AWQ
deriving DecidableEq

/-- Bits per parameter ratio (`src/src/App.tsx` lines 459–472,
`getQuantizationFactor`). -/
def getQuantizationFactor : Quantization → ℚ
  | .FP32 => 4
  | .FP16 => 2
  | .INT8 => 1
  | .INT6 => 0.75
  | .INT4 => 0.5
  | .INT3 => 0.375
  | .INT2 => 0.25
  | .GPTQ => 0.4
  | .AWQ => 0.35

/-- State of the second `App` component (`src/src/App.tsx` lines 447–453). -/
structure State where
  params : ℚ
  quantization : Quantization
  contextLength : ℚ
  useKvCache : Bool

/-- Required VRAM with the fixed `1.2 ×` KV-cache multiplier
(`src/src/App.tsx` lines 478–492, `calculateRequiredVram`). -/
def calculateRequiredVram (s : State) : ℚ :=
  let quantFactor := getQuantizationFactor s.quantization
  let baseVram := s.params * quantFactor
  let contextScale :=
    if s.contextLength / 2048 < 1 then 1 else s.contextLength / 2048
  let kvCacheFactor : ℚ := if s.useKvCache then 1.2 else 1
  baseVram * contextScale * kvCacheFactor

end App2

/-- The KV-cache byte count as the specification words it (claim C2):
`2 (K and V) × numHeads × headDim × contextLengthTokens × batchSize ×
bytesPerParam(kvCacheQuantization)`, with `headDim = 128`, `numHeads` the
head-count approximation of the calculator, and the KV-cache quantization
byte widths taken from `App.getKvCacheQuantFactor`.  This definition
follows the spec, to be compared against `Calculator.kvCacheSize`. -/
def kvCacheBytesSpec (i : Calculator.Inputs) (kvq : App.KvCacheQuantization) : ℚ :=
  2 * (Calculator.numHeads i : ℚ) * 128 * i.contextLength * i.batchSize
    * App.getKvCacheQuantFactor kvq

section Helpers

/-- Every entry of the bytes-per-parameter table, the fallback included,
is positive. -/
lemma bytesPerParameter_pos (q : String) : 0 < Calculator.bytesPerParameter q := by
  unfold Calculator.bytesPerParameter
  split_ifs <;> norm_num

/-- Head count of the default 7B / fp16 / 4096-token scenario. -/
lemma numHeads_scenario :
    Calculator.numHeads ⟨7, 4096, "fp16", true, 1, "rtx4090", 32, false⟩ = 2967 := by
  show ⌈(7 : ℚ) * 1000000000 / (4 * 768 * 768)⌉ = 2967
  rw [Int.ceil_eq_iff]
  norm_num

end Helpers

/-- C1: for every configuration in unified-memory mode with positive system
RAM, `calculateHardwareRecommendation` (the spec's `recommendHardware`) sets
the fits flag to `requiredVram ≤ systemRamGB × 0.75` and the GPU count to 1
exactly when it fits and to 0 otherwise, never any other value. -/
theorem unified_memory_recommendation (s : App.State)
    (hm : s.memoryMode = App.MemoryMode.UNIFIED_MEMORY)
    (_hram : 0 < s.systemMemory) :
    ((App.calculateHardwareRecommendation s).fitsUnified = true
        ↔ App.calculateRequiredVram s ≤ s.systemMemory * 0.75) ∧
    (App.calculateHardwareRecommendation s).gpusRequired
      = (if App.calculateRequiredVram s ≤ s.systemMemory * 0.75 then 1 else 0) := by
  unfold App.calculateHardwareRecommendation App.getMaxUnifiedVram
  rw [hm, if_pos rfl]
  split_ifs with h <;> simp [h]

/-- Witness for C1, the spec's Scenario 5: a 20B half-precision model at
context 2048 needs 40 GB of VRAM, and with 16 GB of unified memory
(budget 12 GB) the recommendation is `fitsUnified = false`,
`gpusRequired = 0`. -/
theorem unified_memory_recommendation_witness :
    App.calculateRequiredVram
        ⟨20, .F16, false, .F16, 2048, .UNIFIED_MEMORY, 16, 24⟩ = 40 ∧
    (App.calculateHardwareRecommendation
        ⟨20, .F16, false, .F16, 2048, .UNIFIED_MEMORY, 16, 24⟩).fitsUnified = false ∧
    (App.calculateHardwareRecommendation
        ⟨20, .F16, false, .F16, 2048, .UNIFIED_MEMORY, 16, 24⟩).gpusRequired = 0 := by
  have h := unified_memory_recommendation
    ⟨20, .F16, false, .F16, 2048, .UNIFIED_MEMORY, 16, 24⟩ rfl (by norm_num)
  have hv : App.calculateRequiredVram
      ⟨20, .F16, false, .F16, 2048, .UNIFIED_MEMORY, 16, 24⟩ = 40 := by
    norm_num [App.calculateRequiredVram, App.contextScale, App.getModelQuantFactor]
  rw [hv] at h
  refine ⟨hv, ?_, ?_⟩
  · have hne : ¬ ((App.calculateHardwareRecommendation
        ⟨20, .F16, false, .F16, 2048, .UNIFIED_MEMORY, 16, 24⟩).fitsUnified = true) := by
      rw [h.1]; norm_num
    simpa using hne
  · rw [h.2]; norm_num

/-- Counterexample to C5: in discrete-GPU mode with the 7B fp16 model on a
24 GB GPU, `gpusRequired = 1 ≥ 1` yet the fits flag of the returned record
is `false`, not `true` as the claim demands. -/
theorem discrete_fits_counterexample :
    1 ≤ (App.calculateHardwareRecommendation
        ⟨7, .F16, false, .F16, 2048, .DISCRETE_GPU, 128, 24⟩).gpusRequired ∧
    (App.calculateHardwareRecommendation
        ⟨7, .F16, false, .F16, 2048, .DISCRETE_GPU, 128, 24⟩).fitsUnified = false := by
  norm_num [App.calculateHardwareRecommendation, App.calculateRequiredVram,
    App.contextScale, App.getModelQuantFactor, App.getMaxUnifiedVram]
  decide

/-- C5 as amended: in discrete-GPU mode with a positive GPU capacity,
`gpusRequired = max 1 ⌈requiredVram / gpuVram⌉` (the capacity is the
configured `gpuVram`, and exceeding one GPU only raises the count, never
signals infeasibility), while the fits flag is always `false` there — it
only ever reports a unified-memory fit. -/
theorem discrete_gpu_recommendation (s : App.State)
    (hm : s.memoryMode = App.MemoryMode.DISCRETE_GPU)
    (hcap : 0 < s.gpuVram) :
    (App.calculateHardwareRecommendation s).gpusRequired
      = max 1 ⌈App.calculateRequiredVram s / s.gpuVram⌉ ∧
    (App.calculateHardwareRecommendation s).fitsUnified = false := by
  unfold App.calculateHardwareRecommendation
  rw [hm, if_neg (by decide)]
  split_ifs with h
  · have h1 : App.calculateRequiredVram s / s.gpuVram ≤ 1 :=
      (div_le_one hcap).mpr h
    have h2 : ⌈App.calculateRequiredVram s / s.gpuVram⌉ ≤ 1 :=
      Int.ceil_le.mpr (by exact_mod_cast h1)
    exact ⟨(max_eq_left h2).symm, rfl⟩
  · push_neg at h
    have h1 : (1 : ℚ) < App.calculateRequiredVram s / s.gpuVram :=
      (one_lt_div hcap).mpr h
    have h2 : (1 : ℤ) < ⌈App.calculateRequiredVram s / s.gpuVram⌉ :=
      Int.lt_ceil.mpr (by exact_mod_cast h1)
    exact ⟨(max_eq_right h2.le).symm, rfl⟩

/-- Witness for C5 as amended: the default 65B Q4 model with KV cache at
context 4096 needs 117 GB, so on 24 GB GPUs the recommendation is
`max 1 ⌈117 / 24⌉ = 5` GPUs with the fits flag `false`. -/
theorem discrete_gpu_recommendation_witness :
    (App.calculateHardwareRecommendation
        ⟨65, .Q4, true, .F16, 4096, .DISCRETE_GPU, 128, 24⟩).gpusRequired
      = max 1 ⌈App.calculateRequiredVram
          ⟨65, .Q4, true, .F16, 4096, .DISCRETE_GPU, 128, 24⟩ / 24⌉ ∧
    (App.calculateHardwareRecommendation
        ⟨65, .Q4, true, .F16, 4096, .DISCRETE_GPU, 128, 24⟩).fitsUnified = false :=
  discrete_gpu_recommendation
    ⟨65, .Q4, true, .F16, 4096, .DISCRETE_GPU, 128, 24⟩ rfl (by norm_num)

/-- Counterexample to C2: the calculator's KV-cache term uses a fixed
two-byte element width, so on the 7B / fp16 / 4096-token scenario it
differs from the claimed formula
`2 × numHeads × 128 × ctx × batch × bytesPerParam(kvCacheQuantization)`
when the KV-cache quantization is full precision (4 bytes). -/
theorem kv_cache_quant_counterexample :
    Calculator.kvCacheSize ⟨7, 4096, "fp16", true, 1, "rtx4090", 32, false⟩
      ≠ kvCacheBytesSpec ⟨7, 4096, "fp16", true, 1, "rtx4090", 32, false⟩
          App.KvCacheQuantization.F32 := by
  rw [show Calculator.kvCacheSize ⟨7, 4096, "fp16", true, 1, "rtx4090", 32, false⟩
        = 2 * (Calculator.numHeads ⟨7, 4096, "fp16", true, 1, "rtx4090", 32, false⟩ : ℚ)
            * 128 * 4096 * 1 * 2 from rfl,
      kvCacheBytesSpec, numHeads_scenario]
  norm_num [App.getKvCacheQuantFactor]

/-- C2 as amended: for every input with the KV cache enabled, the
calculator adds a KV-cache term of
`2 × numHeads × 128 × contextLength × batchSize × 2` bytes — a fixed
two-byte (fp16) element width — and that term coincides with the spec's
`bytesPerParam(kvCacheQuantization)` formula exactly in the half-precision
case, not for the other KV-cache quantizations. -/
theorem kv_cache_fixed_width (i : Calculator.Inputs)
    (h : i.enableKVCache = true) :
    Calculator.totalVramGB i
      = (Calculator.modelSizeBytes i
          + 2 * (Calculator.numHeads i : ℚ) * 128 * i.contextLength * i.batchSize * 2)
        / 2 ^ 30 ∧
    Calculator.kvCacheSize i = kvCacheBytesSpec i App.KvCacheQuantization.F16 := by
  unfold Calculator.totalVramGB Calculator.kvCacheSize kvCacheBytesSpec
  rw [h]
  norm_num [App.getKvCacheQuantFactor]

/-- Witness for C2 as amended: on the 7B / fp16 / 4096-token scenario the
KV-cache term is `2 × 2967 × 128 × 4096 × 1 × 2` bytes, giving a total of
`20222249984 / 2^30 ≈ 18.8` GB. -/
theorem kv_cache_fixed_width_witness :
    Calculator.totalVramGB ⟨7, 4096, "fp16", true, 1, "rtx4090", 32, false⟩
      = 20222249984 / 2 ^ 30 := by
  have h := kv_cache_fixed_width ⟨7, 4096, "fp16", true, 1, "rtx4090", 32, false⟩ rfl
  rw [h.1, numHeads_scenario,
    show Calculator.modelSizeBytes ⟨7, 4096, "fp16", true, 1, "rtx4090", 32, false⟩
      = 7 * 1000000000 * Calculator.bytesPerParameter "fp16" from rfl,
    show Calculator.bytesPerParameter "fp16" = 2 from by decide]
  norm_num

/-- C4: with the KV cache disabled, the calculator's VRAM estimate is
exactly `modelSize × 1e9 × bytesPerParameter(quantization) / 2^30` GB. -/
theorem vram_without_kv_cache (i : Calculator.Inputs)
    (h : i.enableKVCache = false) :
    Calculator.totalVramGB i
      = i.modelSize * 1000000000
          * Calculator.bytesPerParameter i.quantizationMethod / 2 ^ 30 := by
  unfold Calculator.totalVramGB Calculator.modelSizeBytes Calculator.kvCacheSize
  rw [h]
  norm_num

/-- Witness for C4, the spec's Scenario 1: 7B parameters at half precision
(2 bytes per parameter) with the KV cache off needs exactly
`14e9 / 2^30` GB, which is within 0.01 of 13.04 GB. -/
theorem vram_without_kv_cache_witness :
    Calculator.totalVramGB ⟨7, 4096, "fp16", false, 1, "rtx4090", 32, false⟩
      = 14000000000 / 2 ^ 30 ∧
    |Calculator.totalVramGB ⟨7, 4096, "fp16", false, 1, "rtx4090", 32, false⟩
      - 13.04| < 0.01 := by
  have h := vram_without_kv_cache ⟨7, 4096, "fp16", false, 1, "rtx4090", 32, false⟩ rfl
  rw [show Calculator.bytesPerParameter
      (Calculator.Inputs.quantizationMethod ⟨7, 4096, "fp16", false, 1, "rtx4090", 32, false⟩) = 2
      from by decide] at h
  norm_num at h
  refine ⟨?_, ?_⟩ <;> rw [h] <;> norm_num [abs_lt]

/-- Base-2 logarithm of 4 is 2 (used to evaluate the batch scaling curve). -/
lemma logb_two_four : Real.logb 2 4 = 2 := by
  rw [show (4 : ℝ) = 2 ^ (2 : ℕ) by norm_num, Real.logb_pow, Real.logb_self_eq_one (by norm_num)]
  norm_num

/-- Counterexample to C3: the batch scaling curve
`log2(b)/log2(4) + 0.5` does not evaluate to 1.0 at batch size 4. -/
theorem batch_scaling_counterexample : Calculator.batchSizeFactor 4 ≠ 1 := by
  unfold Calculator.batchSizeFactor
  rw [logb_two_four]
  norm_num

/-- C3 as amended: the batch scaling curve `log2(b)/log2(4) + 0.5`
evaluates to exactly 1.5 at batch size 4; the value 1.0 is attained at
batch size 2 instead. -/
theorem batch_scaling_values :
    Calculator.batchSizeFactor 4 = 1.5 ∧ Calculator.batchSizeFactor 2 = 1 := by
  unfold Calculator.batchSizeFactor
  rw [logb_two_four, Real.logb_self_eq_one (by norm_num)]
  norm_num

/-- C6: the system-RAM requirement is exactly `1.5 ×` the VRAM estimate,
and the `systemRAMRequired` output of `calculateRequirements` does not
depend on the declared `systemRAM` input. -/
theorem system_ram_multiplier :
    (∀ v : ℚ, 0 ≤ v → Calculator.estimateSystemRam v = 1.5 * v) ∧
    (∀ i : Calculator.Inputs, ∀ r1 r2 : ℚ,
      (Calculator.calculateRequirements { i with systemRAM := r1 }).systemRAMRequired
        = (Calculator.calculateRequirements { i with systemRAM := r2 }).systemRAMRequired) := by
  constructor
  · intro v _
    unfold Calculator.estimateSystemRam
    ring
  · intro i r1 r2
    rfl

/-- Witness for C6: `estimateSystemRam 4 = 1.5 × 4`, and changing the
declared system RAM from 8 GB to 512 GB leaves `systemRAMRequired`
unchanged on the default configuration. -/
theorem system_ram_multiplier_witness :
    Calculator.estimateSystemRam 4 = 1.5 * 4 ∧
    (Calculator.calculateRequirements
        ⟨7, 4096, "fp16", false, 1, "rtx4090", 8, false⟩).systemRAMRequired
      = (Calculator.calculateRequirements
        ⟨7, 4096, "fp16", false, 1, "rtx4090", 512, false⟩).systemRAMRequired :=
  ⟨system_ram_multiplier.1 4 (by norm_num),
   system_ram_multiplier.2 ⟨7, 4096, "fp16", false, 1, "rtx4090", 8, false⟩ 8 512⟩

/-- C7: the disk-space estimate is exactly
`modelSize × 1e9 × bytesPerParameter(quantization) / 2^30 × 1.1` GB and
depends only on the model size and quantization method: any two inputs
agreeing on those two fields get the same disk-space estimate. -/
theorem disk_space_formula (i : Calculator.Inputs) :
    Calculator.diskSpaceGB i
      = i.modelSize * 1000000000
          * Calculator.bytesPerParameter i.quantizationMethod / 2 ^ 30 * 1.1 ∧
    ∀ j : Calculator.Inputs, j.modelSize = i.modelSize →
      j.quantizationMethod = i.quantizationMethod →
      Calculator.diskSpaceGB j = Calculator.diskSpaceGB i := by
  constructor
  · unfold Calculator.diskSpaceGB
    norm_num
  · intro j h1 h2
    unfold Calculator.diskSpaceGB
    rw [h1, h2]

/-- Witness for C7: on the default 7B fp16 input the disk estimate matches
the formula, and an input differing in context length, batch size,
KV-cache toggle, GPU model, system RAM and memory mode gets the very same
disk estimate. -/
theorem disk_space_formula_witness :
    Calculator.diskSpaceGB ⟨7, 4096, "fp16", false, 1, "rtx4090", 32, false⟩
      = 7 * 1000000000 * Calculator.bytesPerParameter "fp16" / 2 ^ 30 * 1.1 ∧
    Calculator.diskSpaceGB ⟨7, 131072, "fp16", true, 32, "h100", 512, true⟩
      = Calculator.diskSpaceGB ⟨7, 4096, "fp16", false, 1, "rtx4090", 32, false⟩ :=
  ⟨(disk_space_formula ⟨7, 4096, "fp16", false, 1, "rtx4090", 32, false⟩).1,
   (disk_space_formula ⟨7, 4096, "fp16", false, 1, "rtx4090", 32, false⟩).2
     ⟨7, 131072, "fp16", true, 32, "h100", 512, true⟩ rfl rfl⟩

/-- Unfolding of `totalVramGB` on an explicit input record. -/
lemma totalVramGB_mk (p c : ℚ) (q : String) (kv : Bool) (b : ℚ)
    (g : String) (r : ℚ) (u : Bool) :
    Calculator.totalVramGB ⟨p, c, q, kv, b, g, r, u⟩
      = (p * 1000000000 * Calculator.bytesPerParameter q
          + if kv then
              2 * ((⌈p * 1000000000 / (4 * 768 * 768)⌉ : ℤ) : ℚ) * 128 * c * b * 2
            else 0)
        / (1024 * 1024 * 1024) := rfl

/-- C8: over nonnegative inputs, the VRAM estimate is monotonically
non-decreasing in the parameter count, the context length and the batch
size (each varied alone), monotonically non-decreasing in the
bytes-per-parameter constant of the model quantization (hence
non-increasing as the quantization bit-width decreases), and the
bytes-per-parameter constants are ordered
full ≥ half ≥ 8-bit ≥ 4-bit in the calculator's table and
full ≥ half ≥ 8-bit ≥ 4-bit ≥ 2-bit in the `App` variant's table (the
calculator's own table has no 2-bit entry). -/
theorem vram_monotonicity :
    (∀ (c : ℚ) (q : String) (kv : Bool) (b : ℚ) (g : String) (r : ℚ) (u : Bool)
        (p1 p2 : ℚ), 0 ≤ p1 → p1 ≤ p2 → 0 ≤ c → 0 ≤ b →
      Calculator.totalVramGB ⟨p1, c, q, kv, b, g, r, u⟩
        ≤ Calculator.totalVramGB ⟨p2, c, q, kv, b, g, r, u⟩) ∧
    (∀ (p : ℚ) (q : String) (kv : Bool) (b : ℚ) (g : String) (r : ℚ) (u : Bool)
        (c1 c2 : ℚ), 0 ≤ p → c1 ≤ c2 → 0 ≤ b →
      Calculator.totalVramGB ⟨p, c1, q, kv, b, g, r, u⟩
        ≤ Calculator.totalVramGB ⟨p, c2, q, kv, b, g, r, u⟩) ∧
    (∀ (p c : ℚ) (q : String) (kv : Bool) (g : String) (r : ℚ) (u : Bool)
        (b1 b2 : ℚ), 0 ≤ p → 0 ≤ c → b1 ≤ b2 →
      Calculator.totalVramGB ⟨p, c, q, kv, b1, g, r, u⟩
        ≤ Calculator.totalVramGB ⟨p, c, q, kv, b2, g, r, u⟩) ∧
    (∀ (p c : ℚ) (kv : Bool) (b : ℚ) (g : String) (r : ℚ) (u : Bool)
        (q1 q2 : String), 0 ≤ p →
      Calculator.bytesPerParameter q1 ≤ Calculator.bytesPerParameter q2 →
      Calculator.totalVramGB ⟨p, c, q1, kv, b, g, r, u⟩
        ≤ Calculator.totalVramGB ⟨p, c, q2, kv, b, g, r, u⟩) ∧
    (Calculator.bytesPerParameter "int4" ≤ Calculator.bytesPerParameter "int8" ∧
      Calculator.bytesPerParameter "int8" ≤ Calculator.bytesPerParameter "fp16" ∧
      Calculator.bytesPerParameter "fp16" ≤ Calculator.bytesPerParameter "fp32" ∧
      App.getModelQuantFactor App.ModelQuantization.Q2
          ≤ App.getModelQuantFactor App.ModelQuantization.Q4 ∧
      App.getModelQuantFactor App.ModelQuantization.Q4
          ≤ App.getModelQuantFactor App.ModelQuantization.Q8 ∧
      App.getModelQuantFactor App.ModelQuantization.Q8
          ≤ App.getModelQuantFactor App.ModelQuantization.F16 ∧
      App.getModelQuantFactor App.ModelQuantization.F16
          ≤ App.getModelQuantFactor App.ModelQuantization.F32) := by
  have hD : (0 : ℚ) < 1024 * 1024 * 1024 := by norm_num
  refine ⟨?_, ?_, ?_, ?_, ?_⟩
  · intro c q kv b g r u p1 p2 hp1 hp hc hb
    rw [totalVramGB_mk, totalVramGB_mk, div_le_div_iff_of_pos_right hD]
    have hA : p1 * 1000000000 * Calculator.bytesPerParameter q
        ≤ p2 * 1000000000 * Calculator.bytesPerParameter q :=
      mul_le_mul_of_nonneg_right
        (mul_le_mul_of_nonneg_right hp (by norm_num))
        (bytesPerParameter_pos q).le
    refine add_le_add hA ?_
    cases kv with
    | false => simp
    | true =>
      simp only [if_true]
      have hceil : (⌈p1 * 1000000000 / (4 * 768 * 768)⌉ : ℤ)
          ≤ ⌈p2 * 1000000000 / (4 * 768 * 768)⌉ := by
        apply Int.ceil_le_ceil
        rw [div_le_div_iff_of_pos_right (by norm_num : (0 : ℚ) < 4 * 768 * 768)]
        exact mul_le_mul_of_nonneg_right hp (by norm_num)
      have hceil' : ((⌈p1 * 1000000000 / (4 * 768 * 768)⌉ : ℤ) : ℚ)
          ≤ ((⌈p2 * 1000000000 / (4 * 768 * 768)⌉ : ℤ) : ℚ) := by
        exact_mod_cast hceil
      calc 2 * ((⌈p1 * 1000000000 / (4 * 768 * 768)⌉ : ℤ) : ℚ) * 128 * c * b * 2
          = ((⌈p1 * 1000000000 / (4 * 768 * 768)⌉ : ℤ) : ℚ) * (512 * (c * b)) := by
            ring
        _ ≤ ((⌈p2 * 1000000000 / (4 * 768 * 768)⌉ : ℤ) : ℚ) * (512 * (c * b)) :=
            mul_le_mul_of_nonneg_right hceil'
              (mul_nonneg (by norm_num) (mul_nonneg hc hb))
        _ = 2 * ((⌈p2 * 1000000000 / (4 * 768 * 768)⌉ : ℤ) : ℚ) * 128 * c * b * 2 := by
            ring
  · intro p q kv b g r u c1 c2 hp hcc hb
    rw [totalVramGB_mk, totalVramGB_mk, div_le_div_iff_of_pos_right hD]
    refine add_le_add le_rfl ?_
    cases kv with
    | false => simp
    | true =>
      simp only [if_true]
      have hn : (0 : ℚ) ≤ ((⌈p * 1000000000 / (4 * 768 * 768)⌉ : ℤ) : ℚ) := by
        have : (0 : ℤ) ≤ ⌈p * 1000000000 / (4 * 768 * 768)⌉ :=
          Int.ceil_nonneg (div_nonneg (mul_nonneg hp (by norm_num)) (by norm_num))
        exact_mod_cast this
      calc 2 * ((⌈p * 1000000000 / (4 * 768 * 768)⌉ : ℤ) : ℚ) * 128 * c1 * b * 2
          = ((⌈p * 1000000000 / (4 * 768 * 768)⌉ : ℤ) : ℚ) * (512 * b) * c1 := by ring
        _ ≤ ((⌈p * 1000000000 / (4 * 768 * 768)⌉ : ℤ) : ℚ) * (512 * b) * c2 :=
            mul_le_mul_of_nonneg_left hcc
              (mul_nonneg hn (mul_nonneg (by norm_num) hb))
        _ = 2 * ((⌈p * 1000000000 / (4 * 768 * 768)⌉ : ℤ) : ℚ) * 128 * c2 * b * 2 := by
            ring
  · intro p c q kv g r u b1 b2 hp hc hbb
    rw [totalVramGB_mk, totalVramGB_mk, div_le_div_iff_of_pos_right hD]
    refine add_le_add le_rfl ?_
    cases kv with
    | false => simp
    | true =>
      simp only [if_true]
      have hn : (0 : ℚ) ≤ ((⌈p * 1000000000 / (4 * 768 * 768)⌉ : ℤ) : ℚ) := by
        have : (0 : ℤ) ≤ ⌈p * 1000000000 / (4 * 768 * 768)⌉ :=
          Int.ceil_nonneg (div_nonneg (mul_nonneg hp (by norm_num)) (by norm_num))
        exact_mod_cast this
      calc 2 * ((⌈p * 1000000000 / (4 * 768 * 768)⌉ : ℤ) : ℚ) * 128 * c * b1 * 2
          = ((⌈p * 1000000000 / (4 * 768 * 768)⌉ : ℤ) : ℚ) * (512 * c) * b1 := by ring
        _ ≤ ((⌈p * 1000000000 / (4 * 768 * 768)⌉ : ℤ) : ℚ) * (512 * c) * b2 :=
            mul_le_mul_of_nonneg_left hbb
              (mul_nonneg hn (mul_nonneg (by norm_num) hc))
        _ = 2 * ((⌈p * 1000000000 / (4 * 768 * 768)⌉ : ℤ) : ℚ) * 128 * c * b2 * 2 := by
            ring
  · intro p c kv b g r u q1 q2 hp hq
    rw [totalVramGB_mk, totalVramGB_mk, div_le_div_iff_of_pos_right hD]
    exact add_le_add
      (mul_le_mul_of_nonneg_left hq (mul_nonneg hp (by norm_num))) le_rfl
  · refine ⟨?_, ?_, ?_, ?_, ?_, ?_, ?_⟩ <;>
      simp [Calculator.bytesPerParameter, App.getModelQuantFactor] <;> norm_num

/-- Witness for C8: doubling the parameter count from 7B to 13B (all else
fixed at the default configuration) does not decrease the VRAM estimate. -/
theorem vram_monotonicity_witness :
    Calculator.totalVramGB ⟨7, 4096, "fp16", true, 1, "rtx4090", 32, false⟩
      ≤ Calculator.totalVramGB ⟨13, 4096, "fp16", true, 1, "rtx4090", 32, false⟩ :=
  vram_monotonicity.1 4096 "fp16" true 1 "rtx4090" 32 false 7 13
    (by norm_num) (by norm_num) (by norm_num) (by norm_num)

/-- Counterexample to C9: a quantization value absent from the calculator's
bytes-per-parameter table falls back to 2 bytes per parameter, not to the
claimed default factor of 1.0. -/
theorem fallback_counterexample :
    Calculator.bytesPerParameter "unknown" = 2 ∧
    ¬ (Calculator.bytesPerParameter "unknown" = 1) := by
  refine ⟨by decide, by decide⟩

/-- C9 as amended: every operation is total, and the fallbacks are: a
quantization value not in the bytes-per-parameter table maps to 2 bytes
per parameter (the half-precision value); one not in the speed-factor
table maps to factor 1.0; a GPU model not in the VRAM-capacity table maps
to 24 GB and speed factor 1.0. -/
theorem fallback_defaults (q g : String)
    (hq : q ∉ (["fp32", "fp16", "bf16", "int8", "int4", "gptq"] : List String))
    (hg : g ∉ (["rtx3090", "rtx4090", "a100_40gb", "a100_80gb", "h100",
        "rtx3080", "rtx4080", "rtx3070", "rtx4070", "a10", "l4", "a30",
        "a40"] : List String)) :
    Calculator.bytesPerParameter q = 2 ∧
    Calculator.quantizationSpeedFactor q = 1 ∧
    Calculator.gpuVramSizes g = 24 ∧
    Calculator.gpuSpeedFactors g = 1 := by
  simp only [List.mem_cons, List.mem_singleton, not_or] at hq hg
  obtain ⟨hq1, hq2, hq3, hq4, hq5, hq6⟩ := hq
  obtain ⟨hg1, hg2, hg3, hg4, hg5, hg6, hg7, hg8, hg9, hg10, hg11, hg12, hg13⟩ := hg
  unfold Calculator.bytesPerParameter Calculator.quantizationSpeedFactor
    Calculator.gpuVramSizes Calculator.gpuSpeedFactors
  refine ⟨?_, ?_, ?_, ?_⟩
  · rw [if_neg hq1, if_neg hq2, if_neg hq3, if_neg hq4, if_neg hq5, if_neg hq6.1]
  · rw [if_neg hq1, if_neg hq2, if_neg hq3, if_neg hq4, if_neg hq5, if_neg hq6.1]
  · rw [if_neg hg1, if_neg hg2, if_neg hg3, if_neg hg4, if_neg hg5, if_neg hg6,
      if_neg hg7, if_neg hg8, if_neg hg9, if_neg hg10, if_neg hg11, if_neg hg12,
      if_neg hg13.1]
  · rw [if_neg hg1, if_neg hg2, if_neg hg3, if_neg hg4, if_neg hg5, if_neg hg6,
      if_neg hg7, if_neg hg8, if_neg hg9, if_neg hg10, if_neg hg11, if_neg hg12,
      if_neg hg13.1]

/-- Witness for C9 as amended: the out-of-table quantization name `"q2"`
and GPU name `"mygpu"` take the fallback values 2, 1, 24 and 1. -/
theorem fallback_defaults_witness :
    Calculator.bytesPerParameter "q2" = 2 ∧
    Calculator.quantizationSpeedFactor "q2" = 1 ∧
    Calculator.gpuVramSizes "mygpu" = 24 ∧
    Calculator.gpuSpeedFactors "mygpu" = 1 :=
  fallback_defaults "q2" "mygpu" (by decide) (by decide)

/-- C10: the three side-by-side VRAM estimators disagree pairwise on a
common input: 7B parameters, half-precision model weights (2 bytes per
parameter in each table: `"fp16"`, `F16`, `FP16`), context length 4096,
KV cache enabled, batch size 1, KV-cache quantization full precision where
the variant has that knob.  The head-count calculator gives
`20222249984 / 2^30 ≈ 18.8` GB, the `alpha = 0.2` variant gives 39.2 GB,
and the fixed `1.2 ×` variant gives 33.6 GB. -/
theorem estimator_variants_disagree :
    Calculator.totalVramGB ⟨7, 4096, "fp16", true, 1, "rtx4090", 32, false⟩
        ≠ App.calculateRequiredVram
            ⟨7, .F16, true, .F32, 4096, .DISCRETE_GPU, 128, 24⟩ ∧
    Calculator.totalVramGB ⟨7, 4096, "fp16", true, 1, "rtx4090", 32, false⟩
        ≠ App2.calculateRequiredVram ⟨7, .FP16, 4096, true⟩ ∧
    App.calculateRequiredVram ⟨7, .F16, true, .F32, 4096, .DISCRETE_GPU, 128, 24⟩
        ≠ App2.calculateRequiredVram ⟨7, .FP16, 4096, true⟩ := by
  have h1 : Calculator.totalVramGB ⟨7, 4096, "fp16", true, 1, "rtx4090", 32, false⟩
      = 20222249984 / 2 ^ 30 := by
    rw [totalVramGB_mk,
      show (⌈(7 : ℚ) * 1000000000 / (4 * 768 * 768)⌉ : ℤ) = 2967 from numHeads_scenario,
      show Calculator.bytesPerParameter "fp16" = 2 from by decide]
    norm_num
  have h2 : App.calculateRequiredVram ⟨7, .F16, true, .F32, 4096, .DISCRETE_GPU, 128, 24⟩
      = 39.2 := by
    norm_num [App.calculateRequiredVram, App.contextScale, App.getModelQuantFactor,
      App.getKvCacheQuantFactor]
  have h3 : App2.calculateRequiredVram ⟨7, .FP16, 4096, true⟩ = 33.6 := by
    norm_num [App2.calculateRequiredVram, App2.getQuantizationFactor]
  rw [h1, h2, h3]
  refine ⟨by norm_num, by norm_num, by norm_num⟩
